import Mathlib

namespace IBorker

/-! ## Definitions -/

/-- Python exceptions raised by the embedded code. -/
inductive PyError where
  | valueError
  | zeroDivisionError
deriving DecidableEq, Repr

/-- RollState enum from roll.py: roll status categories based on the
open-interest fraction. -/
inductive RollState where
  | pre_roll
  | rolling
  | post_roll
  | unknown
deriving DecidableEq, Repr

/-- An IB contract, reduced to the only field the roll logic reads. -/
structure Contract where
  localSymbol : String
deriving DecidableEq, Repr

/-- RollStatus dataclass from roll.py.  The source field named after the
deferred-to-total open-interest quotient is called `frac` here. -/
structure RollStatus where
  symbol : String
  state : RollState
  frac : ℚ
  front_contract : Option Contract
  back_contract : Option Contract
  front_oi : ℚ
  back_oi : ℚ
  recommendation : String
deriving DecidableEq, Repr

/-- Threshold constant from roll.py (source name has the RAT-prefix spelling):
below this the pair is pre-roll. -/
def THRESHOLD_PRE_ROLL : ℚ := 0.20

/-- Threshold constant from roll.py: above this the deferred contract is
recommended. -/
def THRESHOLD_CROSSOVER : ℚ := 0.50

/-- Threshold constant from roll.py: above this the pair is post-roll. -/
def THRESHOLD_POST_ROLL : ℚ := 0.80

/-- calculate_roll_state from roll.py, lines 61-82: classify a pair of
open-interest readings, returning the state and the deferred share. -/
def calculate_roll_state (front_oi back_oi : ℚ) : RollState × ℚ :=
  let total := front_oi + back_oi
  if total = 0 then
    (RollState.unknown, 0)
  else
    let r := back_oi / total
    if r < THRESHOLD_PRE_ROLL then
      (RollState.pre_roll, r)
    else if r ≥ THRESHOLD_POST_ROLL then
      (RollState.post_roll, r)
    else
      (RollState.rolling, r)

/-- SYMBOL_ALIASES from contracts.py: Globex codes to IB symbols. -/
def SYMBOL_ALIASES : List (String × String) :=
  [("6E", "EUR"), ("6J", "JPY"), ("6B", "GBP"),
   ("6A", "AUD"), ("6C", "CAD"), ("6S", "CHF")]

/-- str.upper() embedded as a per-character ASCII uppercase map (the symbols
this repository handles are ASCII). -/
def str_upper (s : String) : String :=
  String.mk (s.data.map Char.toUpper)

/-- resolve_symbol from contracts.py: uppercase, then translate aliases. -/
def resolve_symbol (symbol : String) : String :=
  let s := str_upper symbol
  ((SYMBOL_ALIASES.lookup s).getD s)

/-- Lookup in an open-interest snapshot dict with the 0.0 default used at
roll.py lines 210-211 (oi_data.get(localSymbol, 0.0)). -/
def oi_get (oi_data : List (String × ℚ)) (k : String) : ℚ :=
  ((oi_data.lookup k).getD 0)

/-- get_roll_status from roll.py, lines 174-235, with the awaited broker
effects (contract chain fetch, qualification, OI snapshot) abstracted into
the chain and oi_data arguments. -/
def get_roll_status_pure (symbol : String) (chain : List Contract)
    (oi_data : List (String × ℚ)) : RollStatus :=
  let sym := resolve_symbol symbol
  match chain with
  | front :: back :: _ =>
    let front_oi := oi_get oi_data front.localSymbol
    let back_oi := oi_get oi_data back.localSymbol
    let sr := calculate_roll_state front_oi back_oi
    let recommendation :=
      if sr.1 = RollState.pre_roll then "Trade " ++ front.localSymbol
      else if sr.1 = RollState.post_roll then "Trade " ++ back.localSymbol
      else if sr.2 ≥ THRESHOLD_CROSSOVER then "Trade " ++ back.localSymbol
      else "Consider " ++ back.localSymbol
    { symbol := sym, state := sr.1, frac := sr.2,
      front_contract := some front, back_contract := some back,
      front_oi := front_oi, back_oi := back_oi,
      recommendation := recommendation }
  | _ =>
    { symbol := sym, state := RollState.unknown, frac := 0,
      front_contract := chain.head?, back_contract := none,
      front_oi := 0, back_oi := 0,
      recommendation := "Insufficient contracts" }

/-- FUTURES_DATABASE from contracts.py, lines 25-67: symbol to
(exchange, name, multiplier, tick_size, liquid_months), in source order. -/
def FUTURES_DATABASE : List (String × String × String × ℚ × ℚ × String) :=
  [("ES", "CME", "E-mini S and P 500", 50.0, 0.25, "HMUZ"),
   ("NQ", "CME", "E-mini NASDAQ-100", 20.0, 0.25, "HMUZ"),
   ("RTY", "CME", "E-mini Russell 2000", 50.0, 0.10, "HMUZ"),
   ("YM", "CBOT", "E-mini Dow (5 dollar)", 5.0, 1.0, "HMUZ"),
   ("MES", "CME", "Micro E-mini S and P 500", 5.0, 0.25, "HMUZ"),
   ("MNQ", "CME", "Micro E-mini NASDAQ-100", 2.0, 0.25, "HMUZ"),
   ("MYM", "CBOT", "Micro E-mini Dow", 0.5, 1.0, "HMUZ"),
   ("M2K", "CME", "Micro E-mini Russell 2000", 5.0, 0.10, "HMUZ"),
   ("EUR", "CME", "Euro FX (6E)", 125000.0, 0.00005, "HMUZ"),
   ("JPY", "CME", "Japanese Yen (6J)", 12500000.0, 0.0000005, "HMUZ"),
   ("GBP", "CME", "British Pound (6B)", 62500.0, 0.0001, "HMUZ"),
   ("AUD", "CME", "Australian Dollar (6A)", 100000.0, 0.0001, "HMUZ"),
   ("CAD", "CME", "Canadian Dollar (6C)", 100000.0, 0.00005, "HMUZ"),
   ("CHF", "CME", "Swiss Franc (6S)", 125000.0, 0.0001, "HMUZ"),
   ("CL", "NYMEX", "Crude Oil", 1000.0, 0.01, "ALL"),
   ("NG", "NYMEX", "Natural Gas", 10000.0, 0.001, "ALL"),
   ("RB", "NYMEX", "RBOB Gasoline", 42000.0, 0.0001, "ALL"),
   ("HO", "NYMEX", "Heating Oil", 42000.0, 0.0001, "ALL"),
   ("MCL", "NYMEX", "Micro Crude Oil", 100.0, 0.01, "ALL"),
   ("GC", "COMEX", "Gold", 100.0, 0.10, "ALL"),
   ("SI", "COMEX", "Silver", 5000.0, 0.005, "ALL"),
   ("HG", "COMEX", "Copper", 25000.0, 0.0005, "ALL"),
   ("MGC", "COMEX", "Micro Gold", 10.0, 0.10, "ALL"),
   ("ZC", "CBOT", "Corn", 50.0, 0.25, "HKNUZ"),
   ("ZS", "CBOT", "Soybeans", 50.0, 0.25, "HKNUZ"),
   ("ZW", "CBOT", "Wheat", 50.0, 0.25, "HKNUZ"),
   ("ZM", "CBOT", "Soybean Meal", 100.0, 0.10, "HKNUZ"),
   ("ZL", "CBOT", "Soybean Oil", 60000.0, 0.01, "HKNUZ"),
   ("ZB", "CBOT", "30-Year T-Bond", 1000.0, 0.03125, "HMUZ"),
   ("UB", "CBOT", "Ultra T-Bond", 1000.0, 0.03125, "HMUZ"),
   ("ZN", "CBOT", "10-Year T-Note", 1000.0, 0.015625, "HMUZ"),
   ("ZF", "CBOT", "5-Year T-Note", 1000.0, 0.0078125, "HMUZ"),
   ("ZT", "CBOT", "2-Year T-Note", 2000.0, 0.0078125, "HMUZ"),
   ("MBT", "CME", "Micro Bitcoin", 0.1, 5.0, "ALL")]

/-- The database keys, in source order. -/
def db_symbols : List String := FUTURES_DATABASE.map Prod.fst

/-- sorted(FUTURES_DATABASE.keys()) from roll.py line 273. -/
def sorted_symbols : List String := db_symbols.mergeSort (fun a b => a ≤ b)

/-- The per-symbol fetch effects a single get_roll_status call awaits:
the contract chain and the open-interest snapshot. -/
def FetchData : Type := List Contract × List (String × ℚ)

/-- The single-symbol operation with its awaited effects reified: a raised
exception during the fetch propagates to the caller unchanged, otherwise the
pure status logic runs on the fetched data. -/
def get_roll_status_x (symbol : String)
    (fetched : Except PyError FetchData) : Except PyError RollStatus :=
  fetched.map (fun d => get_roll_status_pure symbol d.1 d.2)

/-- The placeholder appended by get_all_roll_statuses (roll.py lines
279-290) when a symbol raises. -/
def error_status (symbol : String) : RollStatus :=
  { symbol := symbol, state := RollState.unknown, frac := 0,
    front_contract := none, back_contract := none,
    front_oi := 0, back_oi := 0,
    recommendation := "Error fetching data" }

/-- get_all_roll_statuses from roll.py, lines 262-292: iterate the sorted
database symbols, catching any per-symbol exception and substituting the
error placeholder. The per-symbol effects come from the fetch oracle. -/
def get_all_roll_statuses (fetch : String → Except PyError FetchData) :
    List RollStatus :=
  sorted_symbols.map (fun s =>
    match get_roll_status_x s (fetch s) with
    | Except.ok st => st
    | Except.error _ => error_status s)

/-- ATMOption model from stdev.py, reduced to the fields extract_iv reads
(bid/ask/last are not consulted by the extraction logic). -/
structure ATMOption where
  symbol : String
  expiration : String
  strike : ℚ
  right : String
  model_iv : Option ℚ
deriving DecidableEq, Repr

/-- OptionsChainResult model from stdev.py. -/
structure OptionsChainResult where
  symbol : String
  exchange : String
  underlying_price : ℚ
  atm_strike : ℚ
  options : List ATMOption
deriving DecidableEq, Repr

/-- ExtractedIV model from stdev.py. -/
structure ExtractedIV where
  symbol : String
  expiration : String
  underlying_price : ℚ
  atm_strike : ℚ
  atm_iv : ℚ
  call_iv : Option ℚ
  put_iv : Option ℚ
  iv_source : String
deriving DecidableEq, Repr

/-- The scan at stdev.py lines 104-112: walk the options list and keep the
last call and the last put seen at the ATM strike. -/
def find_atm_options (options : List ATMOption) (atm_strike : ℚ) :
    Option ATMOption × Option ATMOption :=
  options.foldl
    (fun acc opt =>
      if opt.strike = atm_strike then
        if opt.right = "C" then (some opt, acc.2)
        else if opt.right = "P" then (acc.1, some opt)
        else acc
      else acc)
    (none, none)

/-- extract_iv from stdev.py, lines 86-143: average the ATM call and put
model IVs, use a single available side alone, and raise ValueError when no
ATM option or no IV reading exists. -/
def extract_iv (chain_result : OptionsChainResult) :
    Except PyError ExtractedIV :=
  let found := find_atm_options chain_result.options chain_result.atm_strike
  if found.1 = none ∧ found.2 = none then
    Except.error PyError.valueError
  else
    let call_iv := found.1.bind ATMOption.model_iv
    let put_iv := found.2.bind ATMOption.model_iv
    let valid_ivs := ([call_iv, put_iv].filterMap id)
    if valid_ivs = [] then
      Except.error PyError.valueError
    else
      Except.ok
        { symbol := chain_result.symbol,
          expiration :=
            ((chain_result.options.head?.map ATMOption.expiration).getD ""),
          underlying_price := chain_result.underlying_price,
          atm_strike := chain_result.atm_strike,
          atm_iv := valid_ivs.sum / valid_ivs.length,
          call_iv := call_iv,
          put_iv := put_iv,
          iv_source := "model" }

/-- Timeframe enum from stdev.py. -/
inductive Timeframe where
  | daily
  | weekly
  | expiration
  | custom
deriving DecidableEq, Repr

/-- calculate_days_to_expiration from stdev.py, lines 227-241, with the
YYYYMMDD parse and datetime.now() abstracted to timestamps in seconds:
delta.total_seconds() / 86400, floored at 0 by max. -/
def calculate_days_to_expiration (expiration_ts now_ts : ℚ) : ℚ :=
  max ((expiration_ts - now_ts) / 86400) 0

/-- The timeframe dispatch of calculate_expected_move (stdev.py lines
260-276): daily is 1 day, weekly is 7, expiration uses the days to the
expiration timestamp, and custom requires the caller-supplied value,
raising ValueError when it is absent.  The human-readable tf_name label is
presentation only and not modelled. -/
def resolve_days (timeframe : Timeframe) (custom_days : Option ℚ)
    (expiration_ts now_ts : ℚ) : Except PyError ℚ :=
  match timeframe with
  | Timeframe.daily => Except.ok 1
  | Timeframe.weekly => Except.ok 7
  | Timeframe.expiration =>
    Except.ok (calculate_days_to_expiration expiration_ts now_ts)
  | Timeframe.custom =>
    match custom_days with
    | none => Except.error PyError.valueError
    | some d => Except.ok d

/-- The arithmetic core of calculate_expected_move (stdev.py lines
277-292): expected_move = price * iv * sqrt(days / 365) and move_percent =
expected_move / price * 100.  math.sqrt raises ValueError on a negative
argument and float division by zero raises ZeroDivisionError; both are
embedded as explicit error branches, in evaluation order. -/
noncomputable def expected_move_formula (price iv days : ℚ) :
    Except PyError (ℝ × ℝ) :=
  if days / 365 < 0 then Except.error PyError.valueError
  else
    let em : ℝ := (price : ℝ) * (iv : ℝ) * Real.sqrt ((days : ℝ) / 365)
    if price = 0 then Except.error PyError.zeroDivisionError
    else Except.ok (em, em / (price : ℝ) * 100)

/-- ExpectedMove model from stdev.py (the formatted timeframe label is
omitted). -/
structure ExpectedMove where
  symbol : String
  underlying_price : ℚ
  iv : ℚ
  days : ℚ
  expected_move : ℝ
  move_percent : ℝ

/-- calculate_expected_move from stdev.py, lines 243-292: resolve the
horizon, then apply the expected-move formula to the extracted price and
ATM IV. -/
noncomputable def calculate_expected_move (extracted_iv : ExtractedIV)
    (timeframe : Timeframe) (custom_days : Option ℚ)
    (expiration_ts now_ts : ℚ) : Except PyError ExpectedMove :=
  match resolve_days timeframe custom_days expiration_ts now_ts with
  | Except.error e => Except.error e
  | Except.ok days =>
    match expected_move_formula extracted_iv.underlying_price
        extracted_iv.atm_iv days with
    | Except.error e => Except.error e
    | Except.ok em =>
      Except.ok
        { symbol := extracted_iv.symbol,
          underlying_price := extracted_iv.underlying_price,
          iv := extracted_iv.atm_iv, days := days,
          expected_move := em.1, move_percent := em.2 }

/-- SigmaBand model from stdev.py. -/
structure SigmaBand where
  sigma : ℕ
  probability : ℚ
  lower : ℝ
  upper : ℝ

/-- SigmaBands model from stdev.py (the timeframe label is omitted). -/
structure SigmaBands where
  symbol : String
  underlying_price : ℚ
  one_sigma : SigmaBand
  two_sigma : SigmaBand
  three_sigma : SigmaBand

/-- SIGMA_PROBABILITIES from stdev.py, lines 188-192: two-sided normal
probability per sigma level. -/
def SIGMA_PROBABILITIES : List (ℕ × ℚ) :=
  [(1, 0.6827), (2, 0.9545), (3, 0.9973)]

/-- Dict access SIGMA_PROBABILITIES[sigma]; the code only ever indexes the
keys 1, 2 and 3, which are present. -/
def sigma_probability (sigma : ℕ) : ℚ :=
  ((SIGMA_PROBABILITIES.lookup sigma).getD 0)

/-- The loop body of calculate_sigma_bands (stdev.py lines 208-215):
one band at a given sigma multiple. -/
noncomputable def make_sigma_band (price : ℚ) (move_1sigma : ℝ)
    (sigma : ℕ) : SigmaBand :=
  let move := move_1sigma * sigma
  { sigma := sigma, probability := sigma_probability sigma,
    lower := (price : ℝ) - move, upper := (price : ℝ) + move }

/-- calculate_sigma_bands from stdev.py, lines 195-224. -/
noncomputable def calculate_sigma_bands (expected_move : ExpectedMove) :
    SigmaBands :=
  { symbol := expected_move.symbol,
    underlying_price := expected_move.underlying_price,
    one_sigma := make_sigma_band expected_move.underlying_price
      expected_move.expected_move 1,
    two_sigma := make_sigma_band expected_move.underlying_price
      expected_move.expected_move 2,
    three_sigma := make_sigma_band expected_move.underlying_price
      expected_move.expected_move 3 }

/-! ## Theorems -/

/-- Claim C1: calculate_roll_state returns UNKNOWN with value 0 when the
open-interest total is zero; otherwise it returns the quotient
backOI / (frontOI + backOI) together with PRE_ROLL when that quotient is
strictly below 0.20, POST_ROLL when it is at least 0.80, and ROLLING
otherwise. -/
theorem claim_C1_roll_state_classification (front_oi back_oi : ℚ) :
    (front_oi + back_oi = 0 →
      calculate_roll_state front_oi back_oi = (RollState.unknown, 0)) ∧
    (front_oi + back_oi ≠ 0 →
      (calculate_roll_state front_oi back_oi).2 =
        back_oi / (front_oi + back_oi) ∧
      ((calculate_roll_state front_oi back_oi).2 < 0.20 →
        (calculate_roll_state front_oi back_oi).1 = RollState.pre_roll) ∧
      (0.80 ≤ (calculate_roll_state front_oi back_oi).2 →
        (calculate_roll_state front_oi back_oi).1 = RollState.post_roll) ∧
      (0.20 ≤ (calculate_roll_state front_oi back_oi).2 →
        (calculate_roll_state front_oi back_oi).2 < 0.80 →
        (calculate_roll_state front_oi back_oi).1 = RollState.rolling)) := by
  unfold calculate_roll_state THRESHOLD_PRE_ROLL THRESHOLD_POST_ROLL
  constructor
  · intro h
    rw [if_pos h]
  · intro h
    rw [if_neg h]
    dsimp only
    split_ifs with h1 h2
    · exact ⟨rfl, fun _ => rfl, fun h3 => by dsimp only at h3; linarith,
        fun h3 _ => by dsimp only at h3; linarith⟩
    · exact ⟨rfl, fun h3 => by dsimp only at h3; linarith, fun _ => rfl,
        fun _ h3 => by dsimp only at h3; linarith⟩
    · exact ⟨rfl, fun h3 => by dsimp only at h3; exact absurd h3 h1,
        fun h3 => by dsimp only at h3; exact absurd h3 h2, fun _ _ => rfl⟩

/-- Claim C1 witness: the spec's own examples, evaluated concretely.
classify(85, 15) is PRE_ROLL at 0.15, classify(60, 40) is ROLLING at 0.40,
classify(10, 90) is POST_ROLL at 0.90, and classify(0, 0) is UNKNOWN. -/
theorem claim_C1_roll_state_witness :
    calculate_roll_state 0 0 = (RollState.unknown, 0) ∧
    (calculate_roll_state 85 15).1 = RollState.pre_roll ∧
    (calculate_roll_state 10 90).1 = RollState.post_roll ∧
    (calculate_roll_state 60 40).1 = RollState.rolling :=
  ⟨(claim_C1_roll_state_classification 0 0).1 (by norm_num),
   by
    have h := ((claim_C1_roll_state_classification 85 15).2 (by norm_num)).2.1
    rw [((claim_C1_roll_state_classification 85 15).2 (by norm_num)).1] at h
    exact h (by norm_num),
   by
    have h :=
      ((claim_C1_roll_state_classification 10 90).2 (by norm_num)).2.2.1
    rw [((claim_C1_roll_state_classification 10 90).2 (by norm_num)).1] at h
    exact h (by norm_num),
   by
    have h :=
      ((claim_C1_roll_state_classification 60 40).2 (by norm_num)).2.2.2
    rw [((claim_C1_roll_state_classification 60 40).2 (by norm_num)).1] at h
    exact h (by norm_num) (by norm_num)⟩

/-- Claim C6: with front label F and back label B, the recommendation is
"Trade F" for PRE_ROLL, "Trade B" for POST_ROLL, "Trade B" for ROLLING with
share at least 0.50, "Consider B" for ROLLING below 0.50, and
"Insufficient contracts" when fewer than two contracts exist (UNKNOWN). -/
theorem claim_C6_recommendation_text (symbol : String) (chain : List Contract)
    (oi_data : List (String × ℚ)) :
    (chain.length < 2 →
      (get_roll_status_pure symbol chain oi_data).state = RollState.unknown ∧
      (get_roll_status_pure symbol chain oi_data).recommendation =
        "Insufficient contracts") ∧
    (∀ front back rest, chain = front :: back :: rest →
      ((get_roll_status_pure symbol chain oi_data).state = RollState.pre_roll →
        (get_roll_status_pure symbol chain oi_data).recommendation =
          "Trade " ++ front.localSymbol) ∧
      ((get_roll_status_pure symbol chain oi_data).state = RollState.post_roll →
        (get_roll_status_pure symbol chain oi_data).recommendation =
          "Trade " ++ back.localSymbol) ∧
      ((get_roll_status_pure symbol chain oi_data).state = RollState.rolling →
        0.50 ≤ (get_roll_status_pure symbol chain oi_data).frac →
        (get_roll_status_pure symbol chain oi_data).recommendation =
          "Trade " ++ back.localSymbol) ∧
      ((get_roll_status_pure symbol chain oi_data).state = RollState.rolling →
        (get_roll_status_pure symbol chain oi_data).frac < 0.50 →
        (get_roll_status_pure symbol chain oi_data).recommendation =
          "Consider " ++ back.localSymbol)) := by
  constructor
  · intro hlen
    match chain, hlen with
    | [], _ => exact ⟨rfl, rfl⟩
    | [c], _ => exact ⟨rfl, rfl⟩
  · intro front back rest hch
    subst hch
    unfold get_roll_status_pure THRESHOLD_CROSSOVER
    dsimp only
    split_ifs with h1 h2 h3 <;>
      refine ⟨fun hs => ?_, fun hs => ?_, fun hs hf => ?_, fun hs hf => ?_⟩ <;>
      simp_all <;> linarith

/-- Claim C6 witness: a concrete two-contract chain in the rolling band with
share 0.40 yields the recommendation "Consider" plus the back label, and an
empty chain yields "Insufficient contracts". -/
theorem claim_C6_recommendation_witness :
    (get_roll_status_pure "ES" [⟨"ESH6"⟩, ⟨"ESM6"⟩]
        [("ESH6", 60), ("ESM6", 40)]).recommendation = "Consider ESM6" ∧
    ((get_roll_status_pure "ES" ([] : List Contract) []).state =
        RollState.unknown ∧
      (get_roll_status_pure "ES" ([] : List Contract) []).recommendation =
        "Insufficient contracts") :=
  ⟨((claim_C6_recommendation_text "ES" [⟨"ESH6"⟩, ⟨"ESM6"⟩]
      [("ESH6", 60), ("ESM6", 40)]).2 ⟨"ESH6"⟩ ⟨"ESM6"⟩ [] rfl).2.2.2
      (by
        have h1 : oi_get [("ESH6", 60), ("ESM6", 40)] "ESH6" = 60 := rfl
        have h2 : oi_get [("ESH6", 60), ("ESM6", 40)] "ESM6" = 40 := rfl
        norm_num [get_roll_status_pure, calculate_roll_state, h1, h2,
          THRESHOLD_PRE_ROLL, THRESHOLD_POST_ROLL])
      (by
        have h1 : oi_get [("ESH6", 60), ("ESM6", 40)] "ESH6" = 60 := rfl
        have h2 : oi_get [("ESH6", 60), ("ESM6", 40)] "ESM6" = 40 := rfl
        norm_num [get_roll_status_pure, calculate_roll_state, h1, h2,
          THRESHOLD_PRE_ROLL, THRESHOLD_POST_ROLL]),
   (claim_C6_recommendation_text "ES" ([] : List Contract) []).1
      (by norm_num)⟩

/-- Claim C7: the batch operation tolerates per-symbol failure: whenever the
fetch for a database symbol raises, the batch emits the UNKNOWN placeholder
with recommendation "Error fetching data" at that symbol's position and
still produces an entry for every symbol; the single-symbol operation, by
contrast, propagates the failure to its caller. -/
theorem claim_C7_batch_failure_isolation :
    (∀ (symbol : String) (e : PyError),
      get_roll_status_x symbol (Except.error e) = Except.error e) ∧
    (∀ fetch, (get_all_roll_statuses fetch).length = sorted_symbols.length) ∧
    (∀ fetch (i : ℕ) (h : i < sorted_symbols.length) (e : PyError),
      fetch (sorted_symbols.get ⟨i, h⟩) = Except.error e →
      (get_all_roll_statuses fetch).get
          ⟨i, by simpa [get_all_roll_statuses] using h⟩ =
        error_status (sorted_symbols.get ⟨i, h⟩) ∧
      (error_status (sorted_symbols.get ⟨i, h⟩)).state = RollState.unknown ∧
      (error_status (sorted_symbols.get ⟨i, h⟩)).recommendation =
        "Error fetching data") := by
  refine ⟨fun _ _ => rfl, fun _ => by simp [get_all_roll_statuses], ?_⟩
  intro fetch i h e hf
  refine ⟨?_, rfl, rfl⟩
  simp only [get_all_roll_statuses, List.get_map]
  rw [hf]
  rfl

/-- The sorted database key list is nonempty. -/
theorem sorted_symbols_length_pos : 0 < sorted_symbols.length := by
  simp [sorted_symbols, db_symbols, FUTURES_DATABASE]

/-- Claim C7 witness: with a fetch oracle that always raises, the first
batch entry is the error placeholder and the single-symbol operation
propagates the error. -/
theorem claim_C7_batch_failure_witness :
    get_roll_status_x "ES" (Except.error PyError.valueError) =
      Except.error PyError.valueError ∧
    (get_all_roll_statuses (fun _ => Except.error PyError.valueError)).get
        ⟨0, by
          simpa [get_all_roll_statuses] using sorted_symbols_length_pos⟩ =
      error_status (sorted_symbols.get ⟨0, sorted_symbols_length_pos⟩) :=
  ⟨claim_C7_batch_failure_isolation.1 "ES" PyError.valueError,
   (claim_C7_batch_failure_isolation.2.2
      (fun _ => Except.error PyError.valueError) 0 sorted_symbols_length_pos
      PyError.valueError rfl).1⟩

/-- The symbol field of a single-symbol status is always the resolved input
symbol, in both the insufficient-contracts branch and the two-contract
branch. -/
theorem get_roll_status_pure_symbol (s : String) (chain : List Contract)
    (oi_data : List (String × ℚ)) :
    (get_roll_status_pure s chain oi_data).symbol = resolve_symbol s := by
  match chain with
  | [] => rfl
  | [c] => rfl
  | f :: b :: rest => rfl

/-- Every database key is fixed by resolve_symbol: the keys are canonical
uppercase IB symbols, not aliases. -/
theorem db_symbols_resolve_fixed :
    ∀ s ∈ db_symbols, resolve_symbol s = s := by
  decide

/-- Claim C10: the batch operation returns exactly one assessment per
database symbol regardless of which fetches fail: the output has the same
length as the database, its symbols are exactly the database symbols in
ascending order, and each entry carries the symbol it was produced for. -/
theorem claim_C10_batch_shape (fetch : String → Except PyError FetchData) :
    (get_all_roll_statuses fetch).length = FUTURES_DATABASE.length ∧
    (get_all_roll_statuses fetch).map RollStatus.symbol = sorted_symbols ∧
    ((get_all_roll_statuses fetch).map RollStatus.symbol).Pairwise (· ≤ ·) ∧
    ((get_all_roll_statuses fetch).map RollStatus.symbol).Perm db_symbols := by
  have hsym : ∀ s ∈ sorted_symbols,
      (match get_roll_status_x s (fetch s) with
       | Except.ok st => st
       | Except.error _ => error_status s).symbol = s := by
    intro s hs
    have hs' : s ∈ db_symbols := by
      simpa [sorted_symbols] using hs
    have hres : resolve_symbol s = s := db_symbols_resolve_fixed s hs'
    cases hf : fetch s with
    | ok d =>
      simpa [get_roll_status_x, hf, Except.map, get_roll_status_pure_symbol]
        using hres
    | error e => simp [get_roll_status_x, hf, Except.map, error_status]
  have hmap : (get_all_roll_statuses fetch).map RollStatus.symbol =
      sorted_symbols := by
    unfold get_all_roll_statuses
    rw [List.map_map]
    calc sorted_symbols.map
          (RollStatus.symbol ∘ fun s =>
            match get_roll_status_x s (fetch s) with
            | Except.ok st => st
            | Except.error _ => error_status s) =
        sorted_symbols.map id := List.map_congr_left hsym
      _ = sorted_symbols := List.map_id sorted_symbols
  have hperm : sorted_symbols.Perm db_symbols :=
    List.mergeSort_perm db_symbols _
  refine ⟨?_, hmap, ?_, ?_⟩
  · simp [get_all_roll_statuses, sorted_symbols, db_symbols]
  · rw [hmap]
    have hp : sorted_symbols.Pairwise
        (fun a b : String => ((a ≤ b : Bool) : Prop)) :=
      List.sorted_mergeSort
        (by
          intro a b c hab hbc
          simp only [decide_eq_true_eq] at *
          exact le_trans hab hbc)
        (by
          intro a b
          simpa [Bool.or_eq_true, decide_eq_true_eq] using le_total a b)
        db_symbols
    exact hp.imp (by intro a b h; simpa using h)
  · rw [hmap]
    exact hperm

/-- Claim C3: extract_iv returns atm_iv equal to the arithmetic mean of the
ATM call IV and put IV when both are present, to the single available
reading when exactly one is present, and fails when neither is present. -/
theorem claim_C3_iv_averaging (chain_result : OptionsChainResult) :
    (∀ c p,
      (find_atm_options chain_result.options
          chain_result.atm_strike).1.bind ATMOption.model_iv = some c →
      (find_atm_options chain_result.options
          chain_result.atm_strike).2.bind ATMOption.model_iv = some p →
      (extract_iv chain_result).map ExtractedIV.atm_iv =
        Except.ok ((c + p) / 2)) ∧
    (∀ c,
      (find_atm_options chain_result.options
          chain_result.atm_strike).1.bind ATMOption.model_iv = some c →
      (find_atm_options chain_result.options
          chain_result.atm_strike).2.bind ATMOption.model_iv = none →
      (extract_iv chain_result).map ExtractedIV.atm_iv = Except.ok c) ∧
    (∀ p,
      (find_atm_options chain_result.options
          chain_result.atm_strike).1.bind ATMOption.model_iv = none →
      (find_atm_options chain_result.options
          chain_result.atm_strike).2.bind ATMOption.model_iv = some p →
      (extract_iv chain_result).map ExtractedIV.atm_iv = Except.ok p) ∧
    ((find_atm_options chain_result.options
          chain_result.atm_strike).1.bind ATMOption.model_iv = none →
      (find_atm_options chain_result.options
          chain_result.atm_strike).2.bind ATMOption.model_iv = none →
      extract_iv chain_result = Except.error PyError.valueError) := by
  rcases hf : find_atm_options chain_result.options chain_result.atm_strike
    with ⟨c?, p?⟩
  cases c? with
  | none =>
    cases p? with
    | none =>
      refine ⟨?_, ?_, ?_, ?_⟩
      · intro c p hciv _; simp at hciv
      · intro c hciv _; simp at hciv
      · intro p _ hpiv; simp at hpiv
      · intro _ _
        unfold extract_iv
        rw [hf]
        simp
    | some po =>
      refine ⟨?_, ?_, ?_, ?_⟩
      · intro c p hciv _; simp at hciv
      · intro c hciv _; simp at hciv
      · intro p _ hpiv
        have hp : po.model_iv = some p := hpiv
        unfold extract_iv
        rw [hf]
        simp [hp, List.filterMap, Except.map]
      · intro _ hpiv
        have hp : po.model_iv = none := hpiv
        unfold extract_iv
        rw [hf]
        simp [hp, List.filterMap, Except.map]
  | some co =>
    cases p? with
    | none =>
      refine ⟨?_, ?_, ?_, ?_⟩
      · intro c p _ hpiv; simp at hpiv
      · intro c hciv _
        have hc : co.model_iv = some c := hciv
        unfold extract_iv
        rw [hf]
        simp [hc, List.filterMap, Except.map]
      · intro p _ hpiv; simp at hpiv
      · intro hciv _
        have hc : co.model_iv = none := hciv
        unfold extract_iv
        rw [hf]
        simp [hc, List.filterMap, Except.map]
    | some po =>
      refine ⟨?_, ?_, ?_, ?_⟩
      · intro c p hciv hpiv
        have hc : co.model_iv = some c := hciv
        have hp : po.model_iv = some p := hpiv
        unfold extract_iv
        rw [hf]
        simp [hc, hp, List.filterMap, Except.map]
      · intro c hciv hpiv
        have hc : co.model_iv = some c := hciv
        have hp : po.model_iv = none := hpiv
        unfold extract_iv
        rw [hf]
        simp [hc, hp, List.filterMap, Except.map]
      · intro p hciv hpiv
        have hc : co.model_iv = none := hciv
        have hp : po.model_iv = some p := hpiv
        unfold extract_iv
        rw [hf]
        simp [hc, hp, List.filterMap, Except.map]
      · intro hciv hpiv
        have hc : co.model_iv = none := hciv
        have hp : po.model_iv = none := hpiv
        unfold extract_iv
        rw [hf]
        simp [hc, hp, List.filterMap, Except.map]

/-- Claim C3 witness: the spec examples. A chain with ATM call IV 0.18 and
ATM put IV 0.22 yields atm_iv exactly 0.20; a chain with only the call
yields 0.18; a chain with neither option at the ATM strike fails. -/
theorem claim_C3_iv_averaging_witness :
    (extract_iv
        { symbol := "ES", exchange := "CME", underlying_price := 5000,
          atm_strike := 5000,
          options :=
            [{ symbol := "ES", expiration := "20260320", strike := 5000,
               right := "C", model_iv := some 0.18 },
             { symbol := "ES", expiration := "20260320", strike := 5000,
               right := "P", model_iv := some 0.22 }] }).map
        ExtractedIV.atm_iv = Except.ok 0.20 ∧
    (extract_iv
        { symbol := "ES", exchange := "CME", underlying_price := 5000,
          atm_strike := 5000,
          options :=
            [{ symbol := "ES", expiration := "20260320", strike := 5000,
               right := "C", model_iv := some 0.18 }] }).map
        ExtractedIV.atm_iv = Except.ok 0.18 ∧
    extract_iv
        { symbol := "ES", exchange := "CME", underlying_price := 5000,
          atm_strike := 5000, options := [] } =
      Except.error PyError.valueError := by
  refine ⟨?_, ?_, ?_⟩
  · have h := (claim_C3_iv_averaging
      { symbol := "ES", exchange := "CME", underlying_price := 5000,
        atm_strike := 5000,
        options :=
          [{ symbol := "ES", expiration := "20260320", strike := 5000,
             right := "C", model_iv := some 0.18 },
           { symbol := "ES", expiration := "20260320", strike := 5000,
             right := "P", model_iv := some 0.22 }] }).1 0.18 0.22
      (by simp [find_atm_options])
      (by simp [find_atm_options])
    rw [h]
    norm_num
  · exact (claim_C3_iv_averaging
      { symbol := "ES", exchange := "CME", underlying_price := 5000,
        atm_strike := 5000,
        options :=
          [{ symbol := "ES", expiration := "20260320", strike := 5000,
             right := "C", model_iv := some 0.18 }] }).2.1 0.18
      (by simp [find_atm_options])
      (by simp [find_atm_options])
  · exact (claim_C3_iv_averaging
      { symbol := "ES", exchange := "CME", underlying_price := 5000,
        atm_strike := 5000, options := [] }).2.2.2 rfl rfl

/-- Claim C2 counterexample: the claim says every call with iv < 0 fails
with an invalid-input condition, but a call with iv = -0.2 (price = 100,
days = 365) succeeds and returns a negative move of -20. -/
theorem claim_C2_invalid_input_counterexample :
    ((-0.2 : ℚ) < 0) ∧
    expected_move_formula 100 (-0.2) 365 = Except.ok (-20, -20) := by
  refine ⟨by norm_num, ?_⟩
  unfold expected_move_formula
  rw [if_neg (by norm_num)]
  rw [if_neg (by norm_num)]
  have h1 : Real.sqrt (((365 : ℚ) : ℝ) / 365) = 1 := by
    rw [show (((365 : ℚ) : ℝ) / 365) = 1 by norm_num, Real.sqrt_one]
  rw [h1]
  norm_num

/-- Claim C2 (amended): a call with days < 0 fails with ValueError (the
square-root domain error) and a call with price = 0 fails with
ZeroDivisionError; but calls with price < 0 or iv < 0 are not rejected:
every call with days ≥ 0 and price ≠ 0 succeeds.  In particular days = -1
fails. -/
theorem claim_C2_failure_conditions (price iv days : ℚ) :
    (days < 0 →
      expected_move_formula price iv days =
        Except.error PyError.valueError) ∧
    (0 ≤ days → price = 0 →
      expected_move_formula price iv days =
        Except.error PyError.zeroDivisionError) ∧
    (0 ≤ days → price ≠ 0 →
      expected_move_formula price iv days =
        Except.ok ((price : ℝ) * iv * Real.sqrt ((days : ℝ) / 365),
          (price : ℝ) * iv * Real.sqrt ((days : ℝ) / 365) /
            (price : ℝ) * 100)) := by
  refine ⟨fun hd => ?_, fun hd hp => ?_, fun hd hp => ?_⟩
  · unfold expected_move_formula
    rw [if_pos (div_neg_of_neg_of_pos hd (by norm_num))]
  · unfold expected_move_formula
    rw [if_neg (not_lt.mpr (div_nonneg hd (by norm_num)))]
    dsimp only
    rw [if_pos hp]
  · unfold expected_move_formula
    rw [if_neg (not_lt.mpr (div_nonneg hd (by norm_num)))]
    dsimp only
    rw [if_neg hp]

/-- Claim C2 witness: days = -1 fails with ValueError, price = 0 fails with
ZeroDivisionError, and the negative-volatility call succeeds. -/
theorem claim_C2_failure_witness :
    expected_move_formula 100 0.2 (-1) = Except.error PyError.valueError ∧
    expected_move_formula 0 0.2 5 =
      Except.error PyError.zeroDivisionError ∧
    ∃ em mp : ℝ, expected_move_formula 100 (-0.2) 365 =
      Except.ok (em, mp) :=
  ⟨(claim_C2_failure_conditions 100 0.2 (-1)).1 (by norm_num),
   (claim_C2_failure_conditions 0 0.2 5).2.1 (by norm_num) rfl,
   ⟨_, _, (claim_C2_failure_conditions 100 (-0.2) 365).2.2
      (by norm_num) (by norm_num)⟩⟩

/-- Claim C4: on valid input (price > 0, iv ≥ 0, days ≥ 0), the expected
move is price * iv * sqrt(days / 365) with move_percent equal to the move
over price times 100; at price 100, iv 0.20, days 365 the result is exactly
(20, 20); and at days = 0 the move is 0 regardless of iv. -/
theorem claim_C4_expected_move_values :
    (∀ price iv days : ℚ, 0 < price → 0 ≤ iv → 0 ≤ days →
      expected_move_formula price iv days =
        Except.ok ((price : ℝ) * iv * Real.sqrt ((days : ℝ) / 365),
          (price : ℝ) * iv * Real.sqrt ((days : ℝ) / 365) /
            (price : ℝ) * 100)) ∧
    expected_move_formula 100 0.2 365 = Except.ok (20, 20) ∧
    (∀ price iv : ℚ, 0 < price →
      expected_move_formula price iv 0 = Except.ok (0, 0)) := by
  have key : ∀ price iv days : ℚ, 0 ≤ days → price ≠ 0 →
      expected_move_formula price iv days =
        Except.ok ((price : ℝ) * iv * Real.sqrt ((days : ℝ) / 365),
          (price : ℝ) * iv * Real.sqrt ((days : ℝ) / 365) /
            (price : ℝ) * 100) := by
    intro price iv days hd hp
    unfold expected_move_formula
    rw [if_neg (not_lt.mpr (div_nonneg hd (by norm_num)))]
    dsimp only
    rw [if_neg hp]
  refine ⟨fun p iv d hp hiv hd => key p iv d hd (ne_of_gt hp), ?_, ?_⟩
  · rw [key 100 0.2 365 (by norm_num) (by norm_num)]
    have h1 : Real.sqrt (((365 : ℚ) : ℝ) / 365) = 1 := by
      rw [show (((365 : ℚ) : ℝ) / 365) = 1 by norm_num, Real.sqrt_one]
    rw [h1]
    norm_num
  · intro price iv hp
    rw [key price iv 0 le_rfl (ne_of_gt hp)]
    have h0 : Real.sqrt (((0 : ℚ) : ℝ) / 365) = 0 := by
      rw [show (((0 : ℚ) : ℝ) / 365) = 0 by norm_num, Real.sqrt_zero]
    rw [h0]
    norm_num

/-- Claim C4 witness: the two concrete spec examples obtained from the
theorem at concrete inputs. -/
theorem claim_C4_expected_move_witness :
    expected_move_formula 100 0.2 365 = Except.ok (20, 20) ∧
    expected_move_formula 50 0.3 0 = Except.ok (0, 0) :=
  ⟨claim_C4_expected_move_values.2.1,
   claim_C4_expected_move_values.2.2 50 0.3 (by norm_num)⟩

/-- Claim C8: horizon resolution maps daily to 1 day, weekly to 7 days,
expiration to the fractional days from now to the expiration timestamp
floored at 0 (never negative), and custom to the caller-supplied value,
failing when it is absent. -/
theorem claim_C8_horizon_resolution (custom_days : Option ℚ)
    (expiration_ts now_ts d : ℚ) :
    resolve_days Timeframe.daily custom_days expiration_ts now_ts =
      Except.ok 1 ∧
    resolve_days Timeframe.weekly custom_days expiration_ts now_ts =
      Except.ok 7 ∧
    resolve_days Timeframe.expiration custom_days expiration_ts now_ts =
      Except.ok (calculate_days_to_expiration expiration_ts now_ts) ∧
    calculate_days_to_expiration expiration_ts now_ts =
      max ((expiration_ts - now_ts) / 86400) 0 ∧
    0 ≤ calculate_days_to_expiration expiration_ts now_ts ∧
    resolve_days Timeframe.custom none expiration_ts now_ts =
      Except.error PyError.valueError ∧
    resolve_days Timeframe.custom (some d) expiration_ts now_ts =
      Except.ok d :=
  ⟨rfl, rfl, rfl, rfl, le_max_right _ _, rfl, rfl⟩

/-- Claim C5: for every ExpectedMove input, each sigma band at multiple k
has lower = price - k * oneSigmaMove, upper = price + k * oneSigmaMove and
the fixed probability table 0.6827 / 0.9545 / 0.9973; hence every band
satisfies lower + upper = 2 * price.  The function is total on its input
type (no failure modes). -/
theorem claim_C5_sigma_band_symmetry (em : ExpectedMove) :
    ((calculate_sigma_bands em).one_sigma.lower =
        (em.underlying_price : ℝ) - 1 * em.expected_move ∧
      (calculate_sigma_bands em).one_sigma.upper =
        (em.underlying_price : ℝ) + 1 * em.expected_move ∧
      (calculate_sigma_bands em).one_sigma.probability = 0.6827 ∧
      (calculate_sigma_bands em).one_sigma.lower +
          (calculate_sigma_bands em).one_sigma.upper =
        2 * (em.underlying_price : ℝ)) ∧
    ((calculate_sigma_bands em).two_sigma.lower =
        (em.underlying_price : ℝ) - 2 * em.expected_move ∧
      (calculate_sigma_bands em).two_sigma.upper =
        (em.underlying_price : ℝ) + 2 * em.expected_move ∧
      (calculate_sigma_bands em).two_sigma.probability = 0.9545 ∧
      (calculate_sigma_bands em).two_sigma.lower +
          (calculate_sigma_bands em).two_sigma.upper =
        2 * (em.underlying_price : ℝ)) ∧
    ((calculate_sigma_bands em).three_sigma.lower =
        (em.underlying_price : ℝ) - 3 * em.expected_move ∧
      (calculate_sigma_bands em).three_sigma.upper =
        (em.underlying_price : ℝ) + 3 * em.expected_move ∧
      (calculate_sigma_bands em).three_sigma.probability = 0.9973 ∧
      (calculate_sigma_bands em).three_sigma.lower +
          (calculate_sigma_bands em).three_sigma.upper =
        2 * (em.underlying_price : ℝ)) := by
  refine ⟨⟨?_, ?_, ?_, ?_⟩, ⟨?_, ?_, ?_, ?_⟩, ⟨?_, ?_, ?_, ?_⟩⟩ <;>
    simp [calculate_sigma_bands, make_sigma_band, sigma_probability,
      SIGMA_PROBABILITIES, List.lookup] <;> ring

/-- Claim C9: for non-negative open-interest inputs the returned share lies
in [0, 1]; when the total is positive, share 0 is classified PRE_ROLL and
share 1 POST_ROLL (the boundary-inclusive comparisons); and for every valid
expected-move input (price > 0, iv ≥ 0, days ≥ 0) the returned expected
move is non-negative. -/
theorem claim_C9_range_invariants :
    (∀ front_oi back_oi : ℚ, 0 ≤ front_oi → 0 ≤ back_oi →
      (0 ≤ (calculate_roll_state front_oi back_oi).2 ∧
        (calculate_roll_state front_oi back_oi).2 ≤ 1) ∧
      (0 < front_oi + back_oi →
        ((calculate_roll_state front_oi back_oi).2 = 0 →
          (calculate_roll_state front_oi back_oi).1 =
            RollState.pre_roll) ∧
        ((calculate_roll_state front_oi back_oi).2 = 1 →
          (calculate_roll_state front_oi back_oi).1 =
            RollState.post_roll))) ∧
    (∀ price iv days : ℚ, 0 < price → 0 ≤ iv → 0 ≤ days →
      ∃ em mp : ℝ, expected_move_formula price iv days =
        Except.ok (em, mp) ∧ 0 ≤ em) := by
  constructor
  · intro f b hf hb
    by_cases htot : f + b = 0
    · unfold calculate_roll_state
      rw [if_pos htot]
      exact ⟨⟨le_rfl, by norm_num⟩, fun hlt => absurd htot (by linarith)⟩
    · have hpos : 0 < f + b := (add_nonneg hf hb).lt_of_ne (Ne.symm htot)
      unfold calculate_roll_state THRESHOLD_PRE_ROLL THRESHOLD_POST_ROLL
      rw [if_neg htot]
      dsimp only
      have hb0 : 0 ≤ b / (f + b) := div_nonneg hb hpos.le
      have hb1 : b / (f + b) ≤ 1 := by
        rw [div_le_one hpos]
        linarith
      split_ifs with h1 h2
      · exact ⟨⟨hb0, hb1⟩, fun _ => ⟨fun _ => rfl,
          fun he => by dsimp only at he; rw [he] at h1; norm_num at h1⟩⟩
      · exact ⟨⟨hb0, hb1⟩, fun _ =>
          ⟨fun he => by
            dsimp only at he
            rw [he] at h1
            norm_num at h1,
          fun _ => rfl⟩⟩
      · refine ⟨⟨hb0, hb1⟩, fun _ => ⟨fun he => ?_, fun he => ?_⟩⟩
        · dsimp only at he
          rw [he] at h1
          norm_num at h1
        · dsimp only at he
          rw [he] at h2
          norm_num at h2
  · intro price iv days hp hiv hd
    refine ⟨(price : ℝ) * iv * Real.sqrt ((days : ℝ) / 365),
      (price : ℝ) * iv * Real.sqrt ((days : ℝ) / 365) /
        (price : ℝ) * 100, ?_, ?_⟩
    · unfold expected_move_formula
      rw [if_neg (not_lt.mpr (div_nonneg hd (by norm_num)))]
      dsimp only
      rw [if_neg (ne_of_gt hp)]
    · have hpr : (0 : ℝ) ≤ (price : ℝ) := by
        exact_mod_cast hp.le
      have hir : (0 : ℝ) ≤ (iv : ℝ) := by
        exact_mod_cast hiv
      exact mul_nonneg (mul_nonneg hpr hir) (Real.sqrt_nonneg _)

/-- Claim C9 witness: share bounds at (3, 1); share 0 at (3, 0) classifies
PRE_ROLL; share 1 at (0, 5) classifies POST_ROLL; and the valid call
(100, 0.2, 365) returns a non-negative move. -/
theorem claim_C9_range_witness :
    (0 ≤ (calculate_roll_state 3 1).2 ∧
      (calculate_roll_state 3 1).2 ≤ 1) ∧
    (calculate_roll_state 3 0).1 = RollState.pre_roll ∧
    (calculate_roll_state 0 5).1 = RollState.post_roll ∧
    ∃ em mp : ℝ, expected_move_formula 100 0.2 365 =
      Except.ok (em, mp) ∧ 0 ≤ em := by
  refine ⟨(claim_C9_range_invariants.1 3 1 (by norm_num) (by norm_num)).1,
    ?_, ?_, ?_⟩
  · exact ((claim_C9_range_invariants.1 3 0 (by norm_num)
      (by norm_num)).2 (by norm_num)).1
      (by norm_num [calculate_roll_state,
        THRESHOLD_PRE_ROLL, THRESHOLD_POST_ROLL])
  · exact ((claim_C9_range_invariants.1 0 5 (by norm_num)
      (by norm_num)).2 (by norm_num)).2
      (by norm_num [calculate_roll_state,
        THRESHOLD_PRE_ROLL, THRESHOLD_POST_ROLL])
  · exact claim_C9_range_invariants.2 100 0.2 365
      (by norm_num) (by norm_num) (by norm_num)

end IBorker
